import Mathlib

/-!
Shallow embedding of the gold-pawnshop application (src/pawnshop/app.py).
Python floats are modelled as rationals; Python `round` (half-to-even) is
modelled by `pythonRound`; the on-disk JSON history and config files are
modelled as explicit values passed in and returned.
-/

namespace Pawnshop

/-- Conversion constant `TROY_OUNCE_TO_GRAMS = 31.1035` (app.py line 34). -/
def TROY_OUNCE_TO_GRAMS : ℚ := 311035 / 10000

/-- The `KARAT_PURITY` dict (app.py lines 37-43): lookup returns the purity
factor for the five supported karat values and nothing otherwise. -/
def KARAT_PURITY (karat : ℕ) : Option ℚ :=
  if karat = 24 then some 1
  else if karat = 22 then some (9167 / 10000)
  else if karat = 18 then some (75 / 100)
  else if karat = 14 then some (585 / 1000)
  else if karat = 9 then some (375 / 1000)
  else none

/-- The `volatility_margins` table of a config (app.py lines 52-56). -/
structure VolatilityMargins where
  low : ℚ
  medium : ℚ
  high : ℚ
deriving DecidableEq

/-- The `volatility_thresholds` table of a config (app.py lines 57-60). -/
structure VolatilityThresholds where
  low_limit : ℚ
  high_limit : ℚ
deriving DecidableEq

/-- The persisted configuration object (app.py `DEFAULT_CONFIG` shape,
lines 47-61). -/
structure Config where
  discount_rate : ℚ
  interest_rate : ℚ
  shop_name : String
  volatility_margins : VolatilityMargins
  volatility_thresholds : VolatilityThresholds
deriving DecidableEq

/-- `DEFAULT_CONFIG` (app.py lines 47-61). -/
def DEFAULT_CONFIG : Config where
  discount_rate := 94 / 100
  interest_rate := 13 / 100
  shop_name := "Gold Pawnshop"
  volatility_margins := ⟨4, 6, 8⟩
  volatility_thresholds := ⟨1, 3⟩

/-- One entry of the price-history JSON file: `{"timestamp": ..., "price": ...}`
(app.py lines 120-124; the redundant human-readable `date` field is omitted
as it is never read). -/
structure PriceSample where
  timestamp : ℚ
  price : ℚ
deriving DecidableEq

/-- Python `round`: round half to even (the built-in used at app.py line 282),
idealised over the rationals. -/
def pythonRound (q : ℚ) : ℤ :=
  if q - ⌊q⌋ < 1 / 2 then ⌊q⌋
  else if q - ⌊q⌋ > 1 / 2 then ⌊q⌋ + 1
  else if ⌊q⌋ % 2 = 0 then ⌊q⌋ else ⌊q⌋ + 1

/-- `update_price_history` (app.py lines 106-141): append the new sample at
the current time, drop samples at or beyond the 14-day cutoff
(`h["timestamp"] > cutoff_time`), and if more than 1000 entries remain keep
only the last 1000 (`history[-1000:]`). The load-failure path gives
`history = []`, which a caller models by passing the empty list; the
persistence write is the returned list. -/
def update_price_history (history : List PriceSample) (now : ℚ) (price_eur : ℚ) :
    List PriceSample :=
  let appended := history ++ [⟨now, price_eur⟩]
  let cutoff_time := now - 14 * 24 * 3600
  let kept := appended.filter fun s => decide (cutoff_time < s.timestamp)
  if kept.length > 1000 then kept.drop (kept.length - 1000) else kept

/-- The three volatility states (app.py line 147). -/
inductive VolState where
  | low
  | medium
  | high
deriving DecidableEq

/-- The `details` dict returned by `calculate_volatility_state`: `{}` on the
no-file and exception paths, `{"msg": "insufficient_data"}` with fewer than 2
recent samples, and the min/max/avg/count stats otherwise. -/
inductive VolDetails where
  | empty
  | insufficient
  | stats (mn mx avg : ℚ) (count : ℕ)
deriving DecidableEq

/-- The observable condition of the backing history store: file absent, file
present but unreadable/unparseable (the `except` path), or parsed content. -/
inductive HistoryStore where
  | absent
  | unreadable
  | parsed (history : List PriceSample)

/-- The recent-window filter of `calculate_volatility_state` (app.py lines
157-158): prices of samples with `timestamp > now - 14*24*3600`. -/
def recent_prices (history : List PriceSample) (now : ℚ) : List ℚ :=
  (history.filter fun s => decide (now - 14 * 24 * 3600 < s.timestamp)).map
    PriceSample.price

/-- Python `min` over a price list (total on `[]` only because the caller
guards `len < 2` first). -/
def list_min : List ℚ → ℚ
  | [] => 0
  | p :: ps => ps.foldl min p

/-- Python `max` over a price list (total on `[]` only because the caller
guards `len < 2` first). -/
def list_max : List ℚ → ℚ
  | [] => 0
  | p :: ps => ps.foldl max p

/-- Python `sum` over a price list. -/
def list_sum (l : List ℚ) : ℚ := l.foldl (· + ·) 0

/-- The volatility formula (app.py line 168):
`(max - min) / (sum / len) * 100`. -/
def volatility_of (prices : List ℚ) : ℚ :=
  (list_max prices - list_min prices) / (list_sum prices / prices.length) * 100

/-- The state classification (app.py lines 173-178). -/
def state_of_volatility (th : VolatilityThresholds) (volatility : ℚ) : VolState :=
  if volatility < th.low_limit then VolState.low
  else if volatility > th.high_limit then VolState.high
  else VolState.medium

/-- `calculate_volatility_state` (app.py lines 143-189), as a total function of
the store condition, the current time and the configured thresholds. The
absent-file path (line 150) and the exception path (line 189) both return
`('medium', 0.0, {})`; the under-2-samples path returns
`('medium', 0.0, {"msg": "insufficient_data"})`. -/
def calculate_volatility_state (store : HistoryStore) (now : ℚ)
    (th : VolatilityThresholds) : VolState × ℚ × VolDetails :=
  match store with
  | HistoryStore.absent => (VolState.medium, 0, VolDetails.empty)
  | HistoryStore.unreadable => (VolState.medium, 0, VolDetails.empty)
  | HistoryStore.parsed history =>
      let prices := recent_prices history now
      if prices.length < 2 then (VolState.medium, 0, VolDetails.insufficient)
      else
        (state_of_volatility th (volatility_of prices), volatility_of prices,
          VolDetails.stats (list_min prices) (list_max prices)
            (list_sum prices / prices.length) prices.length)

/-- The fallback-judgment of `fetch_gold_price` (app.py line 242): the history
is updated only when `abs(price_eur - 3900.0) > 0.01`. -/
def fetch_judges_real (price_eur : ℚ) : Bool :=
  decide (1 / 100 < |price_eur - 3900|)

/-- The history side effect of `fetch_gold_price` (app.py lines 239-243):
record the fetched price only when it is judged real; otherwise leave the
store untouched. -/
def fetch_gold_price_history (price_eur : ℚ) (history : List PriceSample)
    (now : ℚ) : List PriceSample :=
  if fetch_judges_real price_eur then update_price_history history now price_eur
  else history

/-- The margin-to-discount conversion (app.py line 269):
`discount_rate = 1.0 - margin_percent / 100.0`. -/
def discount_rate_of (margin_percent : ℚ) : ℚ := 1 - margin_percent / 100

/-- `price_per_gram_eur = xaueur_price / TROY_OUNCE_TO_GRAMS`
(app.py line 273). -/
def price_per_gram_of (xaueur_price : ℚ) : ℚ := xaueur_price / TROY_OUNCE_TO_GRAMS

/-- One entry of the `rates` dict (app.py lines 284-287). -/
structure RateEntry where
  melt_value : ℚ
  buy_pawn_price : ℚ
deriving DecidableEq

/-- The per-karat body of `calculate_rates` (app.py lines 262-287), with the
dynamic margin percent (the result of `get_current_margin_percentage`) passed
in explicitly: melt value, discounted raw buy price, and quarter-unit
rounding `round(raw_buy_price * 4) / 4`. -/
def calculate_rates (margin_percent : ℚ) (xaueur_price : ℚ) (karat : ℕ) :
    Option RateEntry :=
  (KARAT_PURITY karat).map fun purity_factor =>
    let melt_value_per_gram := price_per_gram_of xaueur_price * purity_factor
    let raw_buy_price := melt_value_per_gram * discount_rate_of margin_percent
    ⟨melt_value_per_gram, (pythonRound (raw_buy_price * 4) : ℚ) / 4⟩

/-- The JSON payload built by `calculate_loan` (app.py lines 299-325); the due
date is modelled by its distance in days from `now`. -/
structure LoanQuote where
  karat : ℕ
  weight : ℚ
  melt_value_per_gram : ℚ
  total_melt_value : ℚ
  buy_pawn_price_per_gram : ℚ
  loan_amount : ℚ
  interest_1_month : ℚ
  total_due_after_1_month : ℚ
  due_days : ℕ
deriving DecidableEq

/-- `calculate_loan` (app.py lines 299-325). The `rates[karat]` subscript is
modelled as an `Option` lookup; in the application it is always preceded by
the route's karat check. -/
def calculate_loan (karat : ℕ) (weight_in_grams : ℚ)
    (rates : ℕ → Option RateEntry) (interest_rate : ℚ) : Option LoanQuote :=
  (rates karat).map fun e =>
    let loan_amount := e.buy_pawn_price * weight_in_grams
    let interest_1_month := loan_amount * interest_rate
    ⟨karat, weight_in_grams, e.melt_value, e.melt_value * weight_in_grams,
      e.buy_pawn_price, loan_amount, interest_1_month,
      loan_amount + interest_1_month, 30⟩

/-- The validation failures of the `/calculate` route (app.py lines 380-384). -/
inductive CalcError where
  | InvalidKarat
  | InvalidWeight
deriving DecidableEq

/-- The `/calculate` route body after form parsing (app.py lines 373-398):
reject a karat outside `KARAT_PURITY`, then a non-positive weight, then build
the loan quote from the freshly computed rates. The final `none` arm is
unreachable: `calculate_rates` is defined exactly on the keys of
`KARAT_PURITY`, mirroring Python where `rates[karat]` cannot fail after the
membership check. -/
def calculate (karat : ℕ) (weight : ℚ) (margin_percent xaueur_price
    interest_rate : ℚ) : Except CalcError LoanQuote :=
  if (KARAT_PURITY karat).isNone then Except.error CalcError.InvalidKarat
  else if weight ≤ 0 then Except.error CalcError.InvalidWeight
  else
    match calculate_loan karat weight (calculate_rates margin_percent xaueur_price)
        interest_rate with
    | some q => Except.ok q
    | none => Except.error CalcError.InvalidKarat

/-- The admin-update form fields (app.py lines 469-475); `none` models an
omitted field, for which `request.form.get` supplies the route's default. -/
structure AdminForm where
  interest_percent : Option ℚ
  shop_name : Option String
  margin_low : Option ℚ
  margin_medium : Option ℚ
  margin_high : Option ℚ

/-- `update_config` (app.py lines 464-496) applied to the currently loaded
config: set the interest rate from the percent field, the shop name, and the
three-entry margin table (form defaults 13, "Gold Pawnshop", 4.0, 6.0, 9.0);
every other entry of the loaded config is carried over and the result is
persisted whole. -/
def update_config (form : AdminForm) (current : Config) : Config :=
  let interest_percent := form.interest_percent.getD 13
  let new_shop_name := form.shop_name.getD "Gold Pawnshop"
  let margin_low := form.margin_low.getD 4
  let margin_medium := form.margin_medium.getD 6
  let margin_high := form.margin_high.getD 9
  { current with
    interest_rate := interest_percent / 100
    shop_name := new_shop_name
    volatility_margins := ⟨margin_low, margin_medium, margin_high⟩ }

/-!
Helper lemmas shared by the claim theorems.
-/

/-- `pythonRound` lands within half a unit of its argument. -/
theorem pythonRound_near (q : ℚ) : |(pythonRound q : ℚ) - q| ≤ 1 / 2 := by
  unfold pythonRound
  have h1 : ((⌊q⌋ : ℚ)) ≤ q := Int.floor_le q
  have h2 : q < (⌊q⌋ : ℚ) + 1 := Int.lt_floor_add_one q
  split_ifs with ha hb hc <;> rw [abs_le] <;> push_cast <;> constructor <;> linarith

/-- Evaluation rule for `pythonRound` on the upper half of a unit interval. -/
theorem pythonRound_eq_of_gt (q : ℚ) (n : ℤ) (hf : ⌊q⌋ = n) (h : 1 / 2 < q - n) :
    pythonRound q = n + 1 := by
  unfold pythonRound
  rw [hf, if_neg (by linarith), if_pos (by linarith)]

/-- The `KARAT_PURITY` lookup misses exactly outside the five supported karats. -/
theorem KARAT_PURITY_eq_none (karat : ℕ)
    (h : karat ∉ ({9, 14, 18, 22, 24} : Finset ℕ)) : KARAT_PURITY karat = none := by
  unfold KARAT_PURITY
  split_ifs with h1 h2 h3 h4 h5
  · subst h1; exact absurd (by decide) h
  · subst h2; exact absurd (by decide) h
  · subst h3; exact absurd (by decide) h
  · subst h4; exact absurd (by decide) h
  · subst h5; exact absurd (by decide) h
  · rfl

/-- The `KARAT_PURITY` lookup hits on each of the five supported karats. -/
theorem KARAT_PURITY_isSome (karat : ℕ)
    (h : karat ∈ ({9, 14, 18, 22, 24} : Finset ℕ)) :
    ∃ c : ℚ, KARAT_PURITY karat = some c := by
  fin_cases h <;> exact ⟨_, rfl⟩

/-- Closed form of `calculate_rates` on a supported karat. -/
theorem calculate_rates_eq (m P : ℚ) (k : ℕ) (c : ℚ) (h : KARAT_PURITY k = some c) :
    calculate_rates m P k = some ⟨price_per_gram_of P * c,
      (pythonRound (price_per_gram_of P * c * discount_rate_of m * 4) : ℚ) / 4⟩ := by
  simp [calculate_rates, h]

/-- The sample recorded by `update_price_history` is always retained: it passes
the 14-day filter and survives the keep-last-1000 truncation as the final
element. -/
theorem mem_update_price_history (history : List PriceSample) (now price : ℚ) :
    (⟨now, price⟩ : PriceSample) ∈ update_price_history history now price := by
  simp only [update_price_history]
  have hpred : (fun s : PriceSample => decide (now - 14 * 24 * 3600 < s.timestamp))
      ⟨now, price⟩ = true := decide_eq_true (by norm_num)
  have hfilter : (history ++ [(⟨now, price⟩ : PriceSample)]).filter
        (fun s => decide (now - 14 * 24 * 3600 < s.timestamp)) =
      history.filter (fun s => decide (now - 14 * 24 * 3600 < s.timestamp)) ++
        [⟨now, price⟩] := by
    rw [List.filter_append]
    simp [hpred]
  rw [hfilter]
  by_cases hlen : (history.filter (fun s => decide (now - 14 * 24 * 3600 < s.timestamp)) ++
      [(⟨now, price⟩ : PriceSample)]).length > 1000
  · rw [if_pos hlen]
    have hk : (history.filter (fun s => decide (now - 14 * 24 * 3600 < s.timestamp)) ++
        [(⟨now, price⟩ : PriceSample)]).length - 1000 ≤
        (history.filter (fun s => decide (now - 14 * 24 * 3600 < s.timestamp))).length := by
      simp only [List.length_append, List.length_singleton]
      omega
    rw [List.drop_append_of_le_length hk]
    exact List.mem_append_right _ (by simp)
  · rw [if_neg hlen]
    exact List.mem_append_right _ (by simp)

/-!
Claim theorems.
-/

/-- C1: for every spot price P > 0 and every supported karat, the buy/pawn
price per gram is an exact multiple of 0.25, and it is the nearest-quarter
rounding of `melt_value_per_gram * discount_multiplier` (within the half-step
bound 1/8 that nearest-quarter rounding guarantees). -/
theorem claim_C1 (margin_percent P : ℚ) (karat : ℕ) (hP : 0 < P)
    (hk : karat ∈ ({24, 22, 18, 14, 9} : Finset ℕ)) :
    ∃ e : RateEntry, calculate_rates margin_percent P karat = some e ∧
      (∃ n : ℤ, e.buy_pawn_price = n / 4) ∧
      |e.buy_pawn_price - e.melt_value * discount_rate_of margin_percent| ≤ 1 / 8 := by
  obtain ⟨c, hc⟩ : ∃ c : ℚ, KARAT_PURITY karat = some c :=
    KARAT_PURITY_isSome karat (by fin_cases hk <;> decide)
  refine ⟨_, calculate_rates_eq margin_percent P karat c hc,
    ⟨pythonRound (price_per_gram_of P * c * discount_rate_of margin_percent * 4), rfl⟩, ?_⟩
  have h := pythonRound_near (price_per_gram_of P * c * discount_rate_of margin_percent * 4)
  rw [abs_le] at h ⊢
  constructor <;> · simp only []; nlinarith [h.1, h.2]

/-- Witness for C1 at spot price 3000, karat 24, margin 6. -/
theorem claim_C1_witness : ∃ e : RateEntry, calculate_rates 6 3000 24 = some e ∧
    (∃ n : ℤ, e.buy_pawn_price = n / 4) ∧
    |e.buy_pawn_price - e.melt_value * discount_rate_of 6| ≤ 1 / 8 :=
  claim_C1 6 3000 24 (by norm_num) (by decide)

/-- C6: for every spot price and karat tier, the melt value per gram is
`(P / 31.1035) * purity(k)`, with the purity table hardcoded as
`{24: 1.0, 22: 0.9167, 18: 0.75, 14: 0.585, 9: 0.375}`. -/
theorem claim_C6 (margin_percent P : ℚ) (k : ℕ) (c : ℚ)
    (h : KARAT_PURITY k = some c) :
    (KARAT_PURITY 24 = some 1 ∧ KARAT_PURITY 22 = some (9167 / 10000) ∧
      KARAT_PURITY 18 = some (75 / 100) ∧ KARAT_PURITY 14 = some (585 / 1000) ∧
      KARAT_PURITY 9 = some (375 / 1000)) ∧
    ∃ e : RateEntry, calculate_rates margin_percent P k = some e ∧
      e.melt_value = P / TROY_OUNCE_TO_GRAMS * c :=
  ⟨⟨rfl, rfl, rfl, rfl, rfl⟩,
    ⟨_, calculate_rates_eq margin_percent P k c h, rfl⟩⟩

/-- Witness for C6 at spot price 3000, karat 24, margin 6. -/
theorem claim_C6_witness : ∃ e : RateEntry, calculate_rates 6 3000 24 = some e ∧
    e.melt_value = 3000 / TROY_OUNCE_TO_GRAMS * 1 :=
  (claim_C6 6 3000 24 1 rfl).2

/-- C7 counterexample: at spot price 3000 the code's price per gram is
6000000/62207 = 96.45216..., which differs from the claimed 96.4378 by more
than 0.01 (more than two orders of magnitude beyond the stated four-decimal
precision); likewise the raw buy price for karat 24 at a 6% margin differs
from the claimed 90.651 by more than 0.01. -/
theorem claim_C7_counterexample :
    1 / 100 < |price_per_gram_of 3000 - 964378 / 10000| ∧
    1 / 100 < |price_per_gram_of 3000 * 1 * discount_rate_of 6 - 90651 / 1000| := by
  constructor
  · rw [lt_abs]
    left
    norm_num [price_per_gram_of, TROY_OUNCE_TO_GRAMS]
  · rw [lt_abs]
    left
    norm_num [price_per_gram_of, discount_rate_of, TROY_OUNCE_TO_GRAMS]

/-- C7 (amended): with spot price 3000.00 and the medium state active at a 6%
margin, price_per_gram is approximately 96.4522 (not 96.4378); for karat 24
the melt value per gram is approximately 96.4522, the raw buy price is
approximately 90.6650 (not 90.651), and the rounded buy/pawn price per gram
equals 90.75 as claimed. -/
theorem claim_C7 :
    calculate_rates 6 3000 24 = some ⟨price_per_gram_of 3000 * 1, 363 / 4⟩ ∧
    |price_per_gram_of 3000 - 964522 / 10000| < 1 / 10000 ∧
    |price_per_gram_of 3000 * 1 * discount_rate_of 6 - 906650 / 10000| < 1 / 10000 ∧
    (363 : ℚ) / 4 = 9075 / 100 := by
  have hq : price_per_gram_of 3000 * 1 * discount_rate_of 6 * 4 = 22560000 / 62207 := by
    norm_num [price_per_gram_of, discount_rate_of, TROY_OUNCE_TO_GRAMS]
  have h363 : pythonRound (price_per_gram_of 3000 * 1 * discount_rate_of 6 * 4) = 363 := by
    rw [hq]
    have := pythonRound_eq_of_gt (22560000 / 62207) 362 (by norm_num) (by norm_num)
    simpa using this
  refine ⟨?_, ?_, ?_, by norm_num⟩
  · rw [calculate_rates_eq 6 3000 24 1 rfl, h363]
    norm_num
  · rw [abs_sub_lt_iff]
    constructor <;> norm_num [price_per_gram_of, TROY_OUNCE_TO_GRAMS]
  · rw [abs_sub_lt_iff]
    constructor <;> norm_num [price_per_gram_of, discount_rate_of, TROY_OUNCE_TO_GRAMS]

/-- C2: the loan-quote route rejects every unsupported karat with InvalidKarat,
rejects every non-positive weight (on a supported karat) with InvalidWeight,
and produces no quote on any such input. -/
theorem claim_C2 (karat : ℕ) (weight margin_percent xaueur_price interest_rate : ℚ) :
    (karat ∉ ({9, 14, 18, 22, 24} : Finset ℕ) →
      calculate karat weight margin_percent xaueur_price interest_rate =
        Except.error CalcError.InvalidKarat) ∧
    (karat ∈ ({9, 14, 18, 22, 24} : Finset ℕ) → weight ≤ 0 →
      calculate karat weight margin_percent xaueur_price interest_rate =
        Except.error CalcError.InvalidWeight) ∧
    ((karat ∉ ({9, 14, 18, 22, 24} : Finset ℕ) ∨ weight ≤ 0) →
      ∀ q : LoanQuote,
        calculate karat weight margin_percent xaueur_price interest_rate ≠
          Except.ok q) := by
  refine ⟨?_, ?_, ?_⟩
  · intro h
    simp [calculate, KARAT_PURITY_eq_none karat h]
  · intro hk hw
    obtain ⟨c, hc⟩ := KARAT_PURITY_isSome karat hk
    simp [calculate, hc, hw]
  · intro h q
    rcases h with h | h
    · simp [calculate, KARAT_PURITY_eq_none karat h]
    · by_cases hk : karat ∈ ({9, 14, 18, 22, 24} : Finset ℕ)
      · obtain ⟨c, hc⟩ := KARAT_PURITY_isSome karat hk
        simp [calculate, hc, h]
      · simp [calculate, KARAT_PURITY_eq_none karat hk]

/-- Witness for C2: karat 10 is rejected as InvalidKarat and weight 0 at
karat 18 is rejected as InvalidWeight. -/
theorem claim_C2_witness :
    calculate 10 1 6 3000 (13 / 100) = Except.error CalcError.InvalidKarat ∧
    calculate 18 0 6 3000 (13 / 100) = Except.error CalcError.InvalidWeight :=
  ⟨(claim_C2 10 1 6 3000 (13 / 100)).1 (by decide),
   (claim_C2 18 0 6 3000 (13 / 100)).2.1 (by decide) (by norm_num)⟩

/-- C3 counterexample: with thresholds low_limit = 150, high_limit = 100 (the
ordering convention is not enforced) and two recent samples of prices 1 and 3,
the computed volatility is exactly high_limit = 100, yet the state is low, not
medium: the claim's boundary clause fails for this configuration. -/
theorem claim_C3_counterexample :
    2 ≤ (recent_prices [⟨1, 1⟩, ⟨2, 3⟩] 2).length ∧
    (calculate_volatility_state (HistoryStore.parsed [⟨1, 1⟩, ⟨2, 3⟩]) 2
      ⟨150, 100⟩).2.1 = (⟨150, 100⟩ : VolatilityThresholds).high_limit ∧
    (calculate_volatility_state (HistoryStore.parsed [⟨1, 1⟩, ⟨2, 3⟩]) 2
      ⟨150, 100⟩).1 ≠ VolState.medium := by
  refine ⟨?_, ?_, ?_⟩
  · norm_num [recent_prices, List.filter]
  · norm_num [calculate_volatility_state, recent_prices, list_min, list_max,
      list_sum, volatility_of, state_of_volatility, List.filter]
  · have h : (calculate_volatility_state (HistoryStore.parsed [⟨1, 1⟩, ⟨2, 3⟩]) 2
        ⟨150, 100⟩).1 = VolState.low := by
      norm_num [calculate_volatility_state, recent_prices, list_min, list_max,
        list_sum, volatility_of, state_of_volatility, List.filter]
    rw [h]
    decide

/-- C3 (amended): given at least 2 samples in the 14-day window and thresholds
with low_limit ≤ high_limit, the state is low when volatility < low_limit,
high when volatility > high_limit, and medium otherwise; in particular a
volatility equal to low_limit or to high_limit yields medium. -/
theorem claim_C3 (history : List PriceSample) (now : ℚ) (th : VolatilityThresholds)
    (hth : th.low_limit ≤ th.high_limit)
    (hlen : 2 ≤ (recent_prices history now).length) :
    (calculate_volatility_state (HistoryStore.parsed history) now th).2.1 =
      volatility_of (recent_prices history now) ∧
    ((calculate_volatility_state (HistoryStore.parsed history) now th).2.1 <
        th.low_limit →
      (calculate_volatility_state (HistoryStore.parsed history) now th).1 =
        VolState.low) ∧
    (th.high_limit <
        (calculate_volatility_state (HistoryStore.parsed history) now th).2.1 →
      (calculate_volatility_state (HistoryStore.parsed history) now th).1 =
        VolState.high) ∧
    (th.low_limit ≤
        (calculate_volatility_state (HistoryStore.parsed history) now th).2.1 →
      (calculate_volatility_state (HistoryStore.parsed history) now th).2.1 ≤
        th.high_limit →
      (calculate_volatility_state (HistoryStore.parsed history) now th).1 =
        VolState.medium) ∧
    ((calculate_volatility_state (HistoryStore.parsed history) now th).2.1 =
        th.low_limit →
      (calculate_volatility_state (HistoryStore.parsed history) now th).1 =
        VolState.medium) ∧
    ((calculate_volatility_state (HistoryStore.parsed history) now th).2.1 =
        th.high_limit →
      (calculate_volatility_state (HistoryStore.parsed history) now th).1 =
        VolState.medium) := by
  have hne : ¬ (recent_prices history now).length < 2 := by omega
  have hst : (calculate_volatility_state (HistoryStore.parsed history) now th).1 =
      state_of_volatility th (volatility_of (recent_prices history now)) := by
    simp only [calculate_volatility_state, if_neg hne]
  have hvol : (calculate_volatility_state (HistoryStore.parsed history) now th).2.1 =
      volatility_of (recent_prices history now) := by
    simp only [calculate_volatility_state, if_neg hne]
  rw [hst, hvol]
  refine ⟨rfl, ?_, ?_, ?_, ?_, ?_⟩ <;>
    · intros
      unfold state_of_volatility
      split_ifs <;> first | rfl | linarith

/-- Witness for C3: two samples of prices 100 and 102 give volatility
200/101 (about 1.98%), which sits between the default thresholds 1 and 3, so
the state is medium. -/
theorem claim_C3_witness :
    (calculate_volatility_state (HistoryStore.parsed [⟨0, 100⟩, ⟨1, 102⟩]) 1
      ⟨1, 3⟩).1 = VolState.medium := by
  have h := claim_C3 [⟨0, 100⟩, ⟨1, 102⟩] 1 ⟨1, 3⟩ (by norm_num)
    (by norm_num [recent_prices, List.filter])
  have hv : (calculate_volatility_state (HistoryStore.parsed [⟨0, 100⟩, ⟨1, 102⟩])
      1 ⟨1, 3⟩).2.1 = 200 / 101 := by
    rw [h.1]
    norm_num [volatility_of, recent_prices, list_min, list_max, list_sum, List.filter]
  exact h.2.2.2.1 (by rw [hv]; norm_num) (by rw [hv]; norm_num)

/-- C4 counterexample: on an absent history store the function returns state
medium with volatility 0, but the details value is the empty dict, not the
insufficient-data flag that the claim requires for this case (the flag only
appears on the readable-but-under-2-samples path). -/
theorem claim_C4_counterexample :
    calculate_volatility_state HistoryStore.absent 0 ⟨1, 3⟩ =
      (VolState.medium, 0, VolDetails.empty) ∧
    VolDetails.empty ≠ VolDetails.insufficient :=
  ⟨rfl, by decide⟩

/-- C4 (amended): for every absent, unparseable, or under-2-samples history
store the function returns state medium with volatility 0.0 and (being total)
never raises; the details value is the insufficient-data flag exactly on the
readable-but-under-2-samples path, while the absent and unparseable paths
yield the empty details. -/
theorem claim_C4 (now : ℚ) (th : VolatilityThresholds) :
    calculate_volatility_state HistoryStore.absent now th =
      (VolState.medium, 0, VolDetails.empty) ∧
    calculate_volatility_state HistoryStore.unreadable now th =
      (VolState.medium, 0, VolDetails.empty) ∧
    (∀ history : List PriceSample, (recent_prices history now).length < 2 →
      calculate_volatility_state (HistoryStore.parsed history) now th =
        (VolState.medium, 0, VolDetails.insufficient)) ∧
    VolDetails.empty ≠ VolDetails.insufficient := by
  refine ⟨rfl, rfl, ?_, by decide⟩
  intro history h
  simp only [calculate_volatility_state, if_pos h]

/-- Witness for C4 on the parsed-but-empty store. -/
theorem claim_C4_witness :
    calculate_volatility_state (HistoryStore.parsed []) 0 ⟨1, 3⟩ =
      (VolState.medium, 0, VolDetails.insufficient) :=
  (claim_C4 0 ⟨1, 3⟩).2.2.1 [] (by norm_num [recent_prices])

/-- C5: after `update_price_history`, every retained sample is strictly
younger than 14 days, at most 1000 entries remain, and the result is a suffix
of the appended-and-filtered list, so only the most recent entries are kept
when the count exceeds 1000. -/
theorem claim_C5 (history : List PriceSample) (now price : ℚ) :
    (∀ s ∈ update_price_history history now price,
      now - s.timestamp < 14 * 24 * 3600) ∧
    (update_price_history history now price).length ≤ 1000 ∧
    update_price_history history now price <:+
      (history ++ [(⟨now, price⟩ : PriceSample)]).filter
        (fun s => decide (now - 14 * 24 * 3600 < s.timestamp)) := by
  simp only [update_price_history]
  refine ⟨?_, ?_, ?_⟩
  · intro s hs
    have hs' : s ∈ (history ++ [(⟨now, price⟩ : PriceSample)]).filter
        (fun s => decide (now - 14 * 24 * 3600 < s.timestamp)) := by
      by_cases hlen : ((history ++ [(⟨now, price⟩ : PriceSample)]).filter
          (fun s => decide (now - 14 * 24 * 3600 < s.timestamp))).length > 1000
      · rw [if_pos hlen] at hs
        exact List.mem_of_mem_drop hs
      · rwa [if_neg hlen] at hs
    have hts := of_decide_eq_true (List.mem_filter.mp hs').2
    linarith
  · by_cases hlen : ((history ++ [(⟨now, price⟩ : PriceSample)]).filter
        (fun s => decide (now - 14 * 24 * 3600 < s.timestamp))).length > 1000
    · rw [if_pos hlen, List.length_drop]
      omega
    · rw [if_neg hlen]
      omega
  · by_cases hlen : ((history ++ [(⟨now, price⟩ : PriceSample)]).filter
        (fun s => decide (now - 14 * 24 * 3600 < s.timestamp))).length > 1000
    · rw [if_pos hlen]
      exact List.drop_suffix _ _
    · rw [if_neg hlen]

/-- Witness for C5: the freshly recorded sample at time 0 is within the
window, and the one-entry store is within the count cap. -/
theorem claim_C5_witness :
    (0 : ℚ) - (PriceSample.mk 0 5).timestamp < 14 * 24 * 3600 ∧
    (update_price_history [] 0 5).length ≤ 1000 :=
  ⟨(claim_C5 [] 0 5).1 ⟨0, 5⟩ (mem_update_price_history [] 0 5),
   (claim_C5 [] 0 5).2.1⟩

/-- C8 counterexample: the fetched price 3900.005 is not equal to the fallback
constant 3900.0, yet the fetch path records nothing, because the code judges
a price real only when it differs from 3900.0 by more than 0.01. -/
theorem claim_C8_counterexample :
    (7800001 / 2000 : ℚ) ≠ 3900 ∧
    fetch_gold_price_history (7800001 / 2000) [] 0 = [] ∧
    update_price_history [] 0 (7800001 / 2000) ≠ [] := by
  refine ⟨by norm_num, ?_, ?_⟩
  · norm_num [fetch_gold_price_history, fetch_judges_real, abs]
  · have h : update_price_history [] 0 (7800001 / 2000) =
        [⟨0, 7800001 / 2000⟩] := by
      norm_num [update_price_history, List.filter]
    rw [h]
    simp

/-- C8 (amended): the fetch path appends the fetched price to the history if
and only if it is judged real, where "judged real" means differing from the
static fallback value 3900.0 by more than 0.01 (not mere inequality); a
recorded price is actually retained in the store. -/
theorem claim_C8 (price_eur now : ℚ) (history : List PriceSample) :
    (1 / 100 < |price_eur - 3900| →
      fetch_gold_price_history price_eur history now =
        update_price_history history now price_eur ∧
      (⟨now, price_eur⟩ : PriceSample) ∈
        fetch_gold_price_history price_eur history now) ∧
    (|price_eur - 3900| ≤ 1 / 100 →
      fetch_gold_price_history price_eur history now = history) := by
  constructor
  · intro h
    have hj : fetch_judges_real price_eur = true := decide_eq_true h
    constructor
    · simp [fetch_gold_price_history, hj]
    · simp only [fetch_gold_price_history, hj, if_true]
      exact mem_update_price_history history now price_eur
  · intro h
    have hj : fetch_judges_real price_eur = false := decide_eq_false (not_lt.mpr h)
    simp [fetch_gold_price_history, hj]

/-- Witness for C8: a fetch of exactly 3900 records nothing, a fetch of 4000
records the price. -/
theorem claim_C8_witness :
    fetch_gold_price_history 3900 [] 0 = [] ∧
    fetch_gold_price_history 4000 [] 0 = update_price_history [] 0 4000 :=
  ⟨(claim_C8 3900 0 []).2 (by norm_num),
   ((claim_C8 4000 0 []).1 (by rw [show (4000 : ℚ) - 3900 = 100 by norm_num,
      abs_of_pos (by norm_num)]; norm_num)).1⟩

/-- C9: the admin-update operation rewrites the interest rate, the shop name
and the margin table, and carries every other entry of the loaded config over
unchanged; in particular the volatility_thresholds entry of the persisted
config equals the one loaded before the update, for every form input and
every prior config. -/
theorem claim_C9 (form : AdminForm) (current : Config) :
    (update_config form current).volatility_thresholds =
      current.volatility_thresholds := rfl

/-- C10: when the admin-update form omits margin_high, the persisted high
margin is the route's fallback 9.0, which differs from the system-wide
default high margin 8.0 of `DEFAULT_CONFIG`. -/
theorem claim_C10 (form : AdminForm) (current : Config)
    (h : form.margin_high = none) :
    (update_config form current).volatility_margins.high = 9 ∧
    DEFAULT_CONFIG.volatility_margins.high = 8 ∧
    (update_config form current).volatility_margins.high ≠
      DEFAULT_CONFIG.volatility_margins.high := by
  refine ⟨?_, rfl, ?_⟩
  · simp [update_config, h]
  · simp only [update_config, h, Option.getD_none, DEFAULT_CONFIG]
    norm_num

/-- Witness for C10 on the all-defaults form. -/
theorem claim_C10_witness :
    (update_config ⟨none, none, none, none, none⟩
      DEFAULT_CONFIG).volatility_margins.high = 9 ∧
    DEFAULT_CONFIG.volatility_margins.high = 8 :=
  ⟨(claim_C10 ⟨none, none, none, none, none⟩ DEFAULT_CONFIG rfl).1,
   (claim_C10 ⟨none, none, none, none, none⟩ DEFAULT_CONFIG rfl).2.1⟩

end Pawnshop
